import Mathlib

/-!
Verification of the risk-scoring and ETA-adjustment engine of `santa-maps`
(`src/agent.py`): the risk classifier `calculate_risk_score` and the
route merger `merge_route_and_weather`.

Python dictionaries with possibly-absent fields are embedded as structures
of `Option`-typed fields; `dict.get(k, d)` becomes `Option.getD`.
Python floats are embedded as exact rationals (ℚ); Python's `round`
(round-half-to-even) is made explicit as `roundHalfEven` / `round2`.
-/

namespace SantaMaps

/-- A weather observation dictionary; every field may be absent. -/
structure WeatherData where
  location : Option String
  condition : Option String
  precipitation_probability : Option ℚ
  wind_speed_kmh : Option ℚ
  temperature_celsius : Option ℚ
  weather_code : Option ℚ
  deriving Repr, DecidableEq

/-- A routing-leg dictionary; every field may be absent. -/
structure LegData where
  origin : Option String
  destination : Option String
  distance_km : Option ℚ
  duration_seconds : Option ℚ
  deriving Repr, DecidableEq

/-- The dictionary returned by `calculate_risk_score`. -/
structure RiskInfo where
  risk_level : String
  risk_color : String
  risk_multiplier : ℚ
  risk_factors : List String
  deriving Repr, DecidableEq

/-- `snow_codes = list(range(71, 78)) + [85, 86]` (agent.py line 61). -/
def snow_codes : List ℚ := [71, 72, 73, 74, 75, 76, 77] ++ [85, 86]

/-- `calculate_risk_score` (agent.py lines 39-92): sequential updates of the
four local variables, embedded as successive `let`-rebindings of a `RiskInfo`
state. -/
def calculate_risk_score (weather_data : WeatherData) : RiskInfo :=
  let precip_prob := weather_data.precipitation_probability.getD 0
  let wind_speed := weather_data.wind_speed_kmh.getD 0
  let weather_code := weather_data.weather_code.getD 0
  let s : RiskInfo := ⟨"LOW", "green", 1, []⟩
  -- Check for snow/ice conditions (highest priority)
  let s : RiskInfo :=
    if weather_code ∈ snow_codes then
      { s with risk_level := "HIGH", risk_color := "red",
               risk_multiplier := max s.risk_multiplier (7/5),
               risk_factors := s.risk_factors ++ ["Snow/ice conditions"] }
    else s
  -- Check precipitation probability
  let s : RiskInfo :=
    if precip_prob > 70 then
      { s with risk_level := "HIGH", risk_color := "red",
               risk_multiplier := max s.risk_multiplier (13/10),
               risk_factors := s.risk_factors ++
                 ["High precipitation (" ++ toString precip_prob ++ "%)"] }
    else s
  -- Check wind speed
  let s : RiskInfo :=
    if wind_speed > 40 then
      let s1 : RiskInfo :=
        if s.risk_level ≠ "HIGH" then
          { s with risk_level := "MEDIUM", risk_color := "yellow" }
        else s
      { s1 with risk_multiplier := max s1.risk_multiplier (23/20),
                risk_factors := s1.risk_factors ++
                  ["High winds (" ++ toString wind_speed ++ " km/h)"] }
    else s
  -- If no significant risks found
  if s.risk_multiplier = 1 then
    { s with risk_factors := s.risk_factors ++ ["Clear conditions"] }
  else s

/-- Python `round` on an exact value: nearest integer, ties to even. -/
def roundHalfEven (x : ℚ) : ℤ :=
  let f := ⌊x⌋
  let frac := x - f
  if frac < 1/2 then f
  else if frac > 1/2 then f + 1
  else if f % 2 = 0 then f else f + 1

/-- Python `round(x, 2)`: round to the nearest hundredth, ties to even. -/
def round2 (x : ℚ) : ℚ := (roundHalfEven (x * 100) : ℚ) / 100

/-- Python `round(x)` kept as a rational (the integer it returns). -/
def round0 (x : ℚ) : ℚ := (roundHalfEven x : ℚ)

/-- The nested weather dictionary of a leg object (agent.py lines 127-134). -/
structure LegWeather where
  location : Option String
  condition : String
  precipitation_probability : ℚ
  wind_speed_kmh : ℚ
  temperature_celsius : ℚ
  weather_code : ℚ
  deriving Repr, DecidableEq

/-- One element of `merged_legs` (agent.py lines 119-142).  The Python keys
`from`/`to` are `from_city`/`to_city` here (`from` is a Lean keyword). -/
structure LegResult where
  leg_number : ℕ
  from_city : Option String
  to_city : Option String
  distance_km : ℚ
  distance_miles : ℚ
  base_duration_seconds : ℚ
  base_eta_hours : ℚ
  weather : LegWeather
  risk_level : String
  risk_color : String
  risk_multiplier : ℚ
  risk_factors : List String
  adjusted_duration_seconds : ℚ
  adjusted_eta_hours : ℚ
  delay_hours : ℚ
  deriving Repr, DecidableEq

/-- Pre-rounding `distance_miles` of a leg (agent.py line 109). -/
def legDistanceMiles (leg : LegData) : ℚ :=
  leg.distance_km.getD 0 * (621371 / 1000000)

/-- Pre-rounding `base_eta_hours` of a leg (agent.py line 111). -/
def legBaseEtaHours (leg : LegData) : ℚ :=
  leg.duration_seconds.getD 0 / 3600

/-- Pre-rounding `adjusted_duration_seconds` (agent.py line 114). -/
def legAdjustedDurationSeconds (leg : LegData) (weather : WeatherData) : ℚ :=
  leg.duration_seconds.getD 0 * (calculate_risk_score weather).risk_multiplier

/-- Pre-rounding `adjusted_eta_hours` (agent.py line 115). -/
def legAdjustedEtaHours (leg : LegData) (weather : WeatherData) : ℚ :=
  legAdjustedDurationSeconds leg weather / 3600

/-- Pre-rounding `delay_hours` (agent.py line 116). -/
def legDelayHours (leg : LegData) (weather : WeatherData) : ℚ :=
  legAdjustedEtaHours leg weather - legBaseEtaHours leg

/-- The loop body of `merge_route_and_weather` (agent.py lines 103-144):
builds the leg object for index `i` (0-based) from leg `i` and weather
observation `i`. -/
def mkLegResult (i : ℕ) (leg : LegData) (weather : WeatherData) : LegResult :=
  let risk_info := calculate_risk_score weather
  { leg_number := i + 1
    from_city := leg.origin
    to_city := leg.destination
    distance_km := round2 (leg.distance_km.getD 0)
    distance_miles := round2 (legDistanceMiles leg)
    base_duration_seconds := leg.duration_seconds.getD 0
    base_eta_hours := round2 (legBaseEtaHours leg)
    weather :=
      { location := leg.destination
        condition := weather.condition.getD "Unknown"
        precipitation_probability := weather.precipitation_probability.getD 0
        wind_speed_kmh := weather.wind_speed_kmh.getD 0
        temperature_celsius := weather.temperature_celsius.getD 0
        weather_code := weather.weather_code.getD 0 }
    risk_level := risk_info.risk_level
    risk_color := risk_info.risk_color
    risk_multiplier := risk_info.risk_multiplier
    risk_factors := risk_info.risk_factors
    adjusted_duration_seconds := round0 (legAdjustedDurationSeconds leg weather)
    adjusted_eta_hours := round2 (legAdjustedEtaHours leg weather)
    delay_hours := round2 (legDelayHours leg weather) }

/-- `for i, (leg, weather) in enumerate(zip(legs_data, weather_data_list))`
(agent.py line 103), with the running index made explicit. -/
def mergeLegs (i : ℕ) :
    List LegData → List WeatherData → List LegResult
  | [], _ => []
  | _ :: _, [] => []
  | leg :: legs, weather :: weathers =>
      mkLegResult i leg weather :: mergeLegs (i + 1) legs weathers

/-- `route_summary` (agent.py lines 164-174). -/
structure RouteSummary where
  total_distance_miles : ℚ
  total_base_eta_hours : ℚ
  total_adjusted_eta_hours : ℚ
  total_delay_hours : ℚ
  high_risk_legs : ℕ
  medium_risk_legs : ℕ
  low_risk_legs : ℕ
  overall_risk : String
  deriving Repr, DecidableEq

/-- The value returned by `merge_route_and_weather`. -/
structure RouteResult where
  route_summary : RouteSummary
  legs : List LegResult
  deriving Repr, DecidableEq

/-- `merge_route_and_weather` (agent.py lines 95-176).  Note that the
summary totals are sums over the already-built leg objects, whose
`distance_miles`, `base_eta_hours` and `adjusted_eta_hours` fields were
rounded to 2 decimal places when the objects were built. -/
def merge_route_and_weather (legs_data : List LegData)
    (weather_data_list : List WeatherData) : RouteResult :=
  let merged_legs := mergeLegs 0 legs_data weather_data_list
  let total_distance_miles := (merged_legs.map (fun l => l.distance_miles)).sum
  let total_base_eta := (merged_legs.map (fun l => l.base_eta_hours)).sum
  let total_adjusted_eta := (merged_legs.map (fun l => l.adjusted_eta_hours)).sum
  let total_delay := total_adjusted_eta - total_base_eta
  let high_risk_count :=
    (merged_legs.filter (fun l => l.risk_level = "HIGH")).length
  let medium_risk_count :=
    (merged_legs.filter (fun l => l.risk_level = "MEDIUM")).length
  let low_risk_count :=
    (merged_legs.filter (fun l => l.risk_level = "LOW")).length
  let overall_risk :=
    if high_risk_count ≥ 2 then "HIGH"
    else if high_risk_count ≥ 1 ∨ medium_risk_count ≥ 3 then "MEDIUM"
    else "LOW"
  { route_summary :=
      { total_distance_miles := round2 total_distance_miles
        total_base_eta_hours := round2 total_base_eta
        total_adjusted_eta_hours := round2 total_adjusted_eta
        total_delay_hours := round2 total_delay
        high_risk_legs := high_risk_count
        medium_risk_legs := medium_risk_count
        low_risk_legs := low_risk_count
        overall_risk := overall_risk }
    legs := merged_legs }

/-! ### Test fixtures (concrete inputs) -/

/-- A leg of `get_mock_routing_data` (agent.py lines 185-190). -/
def mockLeg1 : LegData :=
  ⟨some "New York, NY, USA", some "London, UK", some 5571, some 77400⟩

/-- A leg with zero distance and a 9-second duration. -/
def zeroDistLeg : LegData := ⟨some "A", some "B", some 0, some 9⟩

/-- A leg with every field absent. -/
def emptyLeg : LegData := ⟨none, none, none, none⟩

/-- An observation triggering no risk check. -/
def clearObs : WeatherData :=
  ⟨some "B", some "Clear", some 10, some 10, some 5, some 1⟩

/-- An observation with a snow weather code (73). -/
def snowObs : WeatherData :=
  ⟨some "London, UK", some "Snow", some 10, some 10, some (-5), some 73⟩

/-- An observation triggering only the wind check. -/
def windObs : WeatherData := ⟨none, none, some 10, some 50, none, some 1⟩

/-- An observation triggering all three checks. -/
def allThreeObs : WeatherData := ⟨none, none, some 80, some 50, none, some 73⟩

/-! ### Helper lemmas -/

lemma round2_zero : round2 0 = 0 := by
  norm_num [round2, roundHalfEven]

lemma risk_level_cases (w : WeatherData) :
    (calculate_risk_score w).risk_level = "LOW" ∨
    (calculate_risk_score w).risk_level = "MEDIUM" ∨
    (calculate_risk_score w).risk_level = "HIGH" := by
  simp only [calculate_risk_score]
  split_ifs <;> simp

lemma mergeLegs_length (k : ℕ) (legs : List LegData) (ws : List WeatherData) :
    (mergeLegs k legs ws).length = min legs.length ws.length := by
  induction legs generalizing k ws with
  | nil => simp [mergeLegs]
  | cons l ls ih =>
      cases ws with
      | nil => simp [mergeLegs]
      | cons w ws' => simp [mergeLegs, ih, Nat.succ_min_succ]

lemma mergeLegs_get? : ∀ (k : ℕ) (legs : List LegData) (ws : List WeatherData)
    (i : ℕ), (mergeLegs k legs ws).get? i =
      ((legs.zip ws).get? i).map (fun p => mkLegResult (k + i) p.1 p.2)
  | _, [], _, _ => by simp [mergeLegs]
  | _, _ :: _, [], _ => by simp [mergeLegs]
  | k, l :: ls, w :: ws', 0 => by
      rw [show mergeLegs k (l :: ls) (w :: ws') =
            mkLegResult k l w :: mergeLegs (k + 1) ls ws' from rfl,
          List.zip_cons_cons, List.get?_cons_zero, List.get?_cons_zero,
          Nat.add_zero]
      rfl
  | k, l :: ls, w :: ws', (j + 1) => by
      rw [show mergeLegs k (l :: ls) (w :: ws') =
            mkLegResult k l w :: mergeLegs (k + 1) ls ws' from rfl,
          List.zip_cons_cons, List.get?_cons_succ, List.get?_cons_succ,
          mergeLegs_get? (k + 1) ls ws' j]
      have hk : k + 1 + j = k + (j + 1) := by omega
      rw [hk]

lemma mergeLegs_nil_right (k : ℕ) (legs : List LegData) :
    mergeLegs k legs [] = [] := by
  cases legs <;> rfl

lemma mergeLegs_map_sum (f : LegResult → ℚ) (g : LegData → WeatherData → ℚ)
    (h : ∀ i leg w, f (mkLegResult i leg w) = g leg w)
    (k : ℕ) (legs : List LegData) (ws : List WeatherData) :
    ((mergeLegs k legs ws).map f).sum =
      ((legs.zip ws).map (fun p => g p.1 p.2)).sum := by
  induction legs generalizing k ws with
  | nil => simp [mergeLegs]
  | cons l ls ih =>
      cases ws with
      | nil => simp [mergeLegs]
      | cons w ws' => simp [mergeLegs, h, ih]

lemma count_partition (k : ℕ) (legs : List LegData) (ws : List WeatherData) :
    ((mergeLegs k legs ws).filter (fun l => l.risk_level = "HIGH")).length +
    ((mergeLegs k legs ws).filter (fun l => l.risk_level = "MEDIUM")).length +
    ((mergeLegs k legs ws).filter (fun l => l.risk_level = "LOW")).length =
    (mergeLegs k legs ws).length := by
  induction legs generalizing k ws with
  | nil => simp [mergeLegs]
  | cons l ls ih =>
      cases ws with
      | nil => simp [mergeLegs]
      | cons w ws' =>
          have hlvl : (mkLegResult k l w).risk_level =
              (calculate_risk_score w).risk_level := rfl
          rw [show mergeLegs k (l :: ls) (w :: ws') =
                mkLegResult k l w :: mergeLegs (k + 1) ls ws' from rfl]
          rcases risk_level_cases w with h | h | h <;>
            simp [List.filter_cons, hlvl, h, ← ih (k + 1) ws'] <;> omega

/-! ### Claim theorems -/

/-- C1 (counterexample): the route summary totals are NOT the sums of the
per-leg unrounded values with rounding applied only once at output.  On a
route of three legs of 9 seconds each, the code's `total_base_eta_hours` is
`0`, while the unrounded per-leg base ETAs sum to `3/400` hours, which
rounds at output to `1/100 = 0.01`. -/
theorem C1_totals_unrounded_counterexample :
    (merge_route_and_weather [zeroDistLeg, zeroDistLeg, zeroDistLeg]
        [clearObs, clearObs, clearObs]).route_summary.total_base_eta_hours
      = 0 ∧
    (([zeroDistLeg, zeroDistLeg, zeroDistLeg].zip
        [clearObs, clearObs, clearObs]).map
        (fun p => legBaseEtaHours p.1)).sum = 3 / 400 ∧
    round2 (3 / 400) = 1 / 100 ∧ (0 : ℚ) ≠ 3 / 400 ∧ (0 : ℚ) ≠ 1 / 100 := by
  refine ⟨?_, ?_, ?_, by norm_num, by norm_num⟩
  · norm_num [merge_route_and_weather, mergeLegs, mkLegResult,
      calculate_risk_score, snow_codes, legBaseEtaHours, legDistanceMiles,
      legAdjustedDurationSeconds, legAdjustedEtaHours, legDelayHours,
      zeroDistLeg, clearObs, round2, roundHalfEven, round0]
  · norm_num [legBaseEtaHours, zeroDistLeg]
  · norm_num [round2, roundHalfEven]

/-- C1 (amended): the summary totals `total_distance_miles`,
`total_base_eta_hours` and `total_adjusted_eta_hours` are the 2-decimal
roundings of the sums of the per-leg ROUNDED (2-decimal) values, and
`total_delay_hours` is the rounding of the difference of those two rounded
sums; per-leg rounding does feed into the aggregation. -/
theorem C1_totals_of_rounded_sums (legs : List LegData)
    (ws : List WeatherData) :
    (merge_route_and_weather legs ws).route_summary.total_distance_miles =
      round2 (((legs.zip ws).map
        (fun p => round2 (legDistanceMiles p.1))).sum) ∧
    (merge_route_and_weather legs ws).route_summary.total_base_eta_hours =
      round2 (((legs.zip ws).map
        (fun p => round2 (legBaseEtaHours p.1))).sum) ∧
    (merge_route_and_weather legs ws).route_summary.total_adjusted_eta_hours =
      round2 (((legs.zip ws).map
        (fun p => round2 (legAdjustedEtaHours p.1 p.2))).sum) ∧
    (merge_route_and_weather legs ws).route_summary.total_delay_hours =
      round2 ((((legs.zip ws).map
          (fun p => round2 (legAdjustedEtaHours p.1 p.2))).sum) -
        (((legs.zip ws).map
          (fun p => round2 (legBaseEtaHours p.1))).sum)) := by
  have hd := mergeLegs_map_sum (fun l => l.distance_miles)
    (fun leg _ => round2 (legDistanceMiles leg)) (fun _ _ _ => rfl) 0 legs ws
  have hb := mergeLegs_map_sum (fun l => l.base_eta_hours)
    (fun leg _ => round2 (legBaseEtaHours leg)) (fun _ _ _ => rfl) 0 legs ws
  have ha := mergeLegs_map_sum (fun l => l.adjusted_eta_hours)
    (fun leg w => round2 (legAdjustedEtaHours leg w)) (fun _ _ _ => rfl)
    0 legs ws
  exact ⟨congrArg round2 hd, congrArg round2 hb, congrArg round2 ha,
    congrArg round2 (by rw [ha, hb])⟩

/-- C2: an observation whose weather code is outside {71..77, 85, 86}, whose
precipitation probability is at most 70 and whose wind speed is at most
40 km/h is classified LOW / green / multiplier 1 / factors
["Clear conditions"]. -/
theorem C2_clear_conditions (w : WeatherData)
    (hcode : w.weather_code.getD 0 ∉ snow_codes)
    (hprecip : w.precipitation_probability.getD 0 ≤ 70)
    (hwind : w.wind_speed_kmh.getD 0 ≤ 40) :
    calculate_risk_score w = ⟨"LOW", "green", 1, ["Clear conditions"]⟩ := by
  have h2 : ¬ (w.precipitation_probability.getD 0 > 70) := not_lt.mpr hprecip
  have h3 : ¬ (w.wind_speed_kmh.getD 0 > 40) := not_lt.mpr hwind
  simp [calculate_risk_score, hcode, h2, h3]

/-- Witness for C2 at a concrete clear observation. -/
theorem C2_clear_conditions_witness :
    calculate_risk_score clearObs =
      ⟨"LOW", "green", 1, ["Clear conditions"]⟩ :=
  C2_clear_conditions clearObs (by norm_num [clearObs, snow_codes])
    (by norm_num [clearObs]) (by norm_num [clearObs])

/-- C3: the risk multiplier is at least 1 and equals the maximum (never the
sum) of the triggered candidates — 7/5 for the snow/ice code check, 13/10
for precipitation > 70, 23/20 for wind > 40 — defaulting to 1; an
observation triggering all three checks gets multiplier 7/5 = 1.40. -/
theorem C3_multiplier_is_max_of_candidates (w : WeatherData) :
    1 ≤ (calculate_risk_score w).risk_multiplier ∧
    (calculate_risk_score w).risk_multiplier =
      max (max (if w.weather_code.getD 0 ∈ snow_codes then 7 / 5 else 1)
            (if w.precipitation_probability.getD 0 > 70 then 13 / 10 else 1))
        (if w.wind_speed_kmh.getD 0 > 40 then 23 / 20 else 1) ∧
    (calculate_risk_score allThreeObs).risk_multiplier = 7 / 5 := by
  refine ⟨?_, ?_, by norm_num [calculate_risk_score, allThreeObs,
    snow_codes, max_def]⟩ <;>
  · simp only [calculate_risk_score]
    split_ifs <;> first
      | (norm_num [max_def] at *)
      | norm_num [max_def]

/-- C4: when wind speed exceeds 40 km/h, the wind factor string is appended
(last among the factors) and the multiplier is at least 23/20; the verdict
is MEDIUM / yellow exactly when neither the snow/ice check nor the
precipitation check fired, and stays HIGH / red otherwise. -/
theorem C4_wind_check (w : WeatherData)
    (hwind : w.wind_speed_kmh.getD 0 > 40) :
    ("High winds (" ++ toString (w.wind_speed_kmh.getD 0) ++ " km/h)") ∈
      (calculate_risk_score w).risk_factors ∧
    (calculate_risk_score w).risk_factors.getLast? =
      some ("High winds (" ++ toString (w.wind_speed_kmh.getD 0) ++
        " km/h)") ∧
    23 / 20 ≤ (calculate_risk_score w).risk_multiplier ∧
    (if w.weather_code.getD 0 ∈ snow_codes ∨
        w.precipitation_probability.getD 0 > 70 then
      (calculate_risk_score w).risk_level = "HIGH" ∧
        (calculate_risk_score w).risk_color = "red"
    else
      (calculate_risk_score w).risk_level = "MEDIUM" ∧
        (calculate_risk_score w).risk_color = "yellow") := by
  simp only [calculate_risk_score, hwind, if_true]
  split_ifs <;> (try norm_num [max_def] at *) <;> (try simp_all) <;>
    (try linarith)

/-- Witness for C4 at a concrete wind-only observation. -/
theorem C4_wind_check_witness :
    ("High winds (" ++ toString (windObs.wind_speed_kmh.getD 0) ++
        " km/h)") ∈ (calculate_risk_score windObs).risk_factors ∧
    (calculate_risk_score windObs).risk_factors.getLast? =
      some ("High winds (" ++ toString (windObs.wind_speed_kmh.getD 0) ++
        " km/h)") ∧
    23 / 20 ≤ (calculate_risk_score windObs).risk_multiplier ∧
    (if windObs.weather_code.getD 0 ∈ snow_codes ∨
        windObs.precipitation_probability.getD 0 > 70 then
      (calculate_risk_score windObs).risk_level = "HIGH" ∧
        (calculate_risk_score windObs).risk_color = "red"
    else
      (calculate_risk_score windObs).risk_level = "MEDIUM" ∧
        (calculate_risk_score windObs).risk_color = "yellow") :=
  C4_wind_check windObs (by norm_num [windObs])

/-- C5: the overall risk is determined first-match-wins from the per-leg
risk-level counts (≥ 2 HIGH legs → HIGH; else ≥ 1 HIGH leg or ≥ 3 MEDIUM
legs → MEDIUM; else LOW); in particular one HIGH leg gives MEDIUM and two
HIGH legs give HIGH. -/
theorem C5_overall_risk_policy (legs : List LegData)
    (ws : List WeatherData) :
    (merge_route_and_weather legs ws).route_summary.overall_risk =
      (if ((merge_route_and_weather legs ws).legs.filter
            (fun l => l.risk_level = "HIGH")).length ≥ 2 then "HIGH"
       else if ((merge_route_and_weather legs ws).legs.filter
            (fun l => l.risk_level = "HIGH")).length ≥ 1 ∨
          ((merge_route_and_weather legs ws).legs.filter
            (fun l => l.risk_level = "MEDIUM")).length ≥ 3 then "MEDIUM"
       else "LOW") ∧
    (merge_route_and_weather [mockLeg1]
        [snowObs]).route_summary.overall_risk = "MEDIUM" ∧
    (merge_route_and_weather [mockLeg1, mockLeg1]
        [snowObs, snowObs]).route_summary.overall_risk = "HIGH" := by
  refine ⟨rfl, ?_, ?_⟩ <;>
    norm_num [merge_route_and_weather, mergeLegs, mkLegResult,
      calculate_risk_score, snow_codes, mockLeg1, snowObs]

/-- C6: the merged leg list has length `min` of the two input lengths, its
element at position i is built from leg i and observation i, and it carries
the 1-based leg number i + 1. -/
theorem C6_positional_pairing (legs : List LegData)
    (ws : List WeatherData) :
    (merge_route_and_weather legs ws).legs.length =
      min legs.length ws.length ∧
    (∀ i : ℕ, (merge_route_and_weather legs ws).legs.get? i =
      ((legs.zip ws).get? i).map (fun p => mkLegResult i p.1 p.2)) ∧
    (∀ (i : ℕ) (leg : LegData) (w : WeatherData),
      (mkLegResult i leg w).leg_number = i + 1) := by
  refine ⟨mergeLegs_length 0 legs ws, ?_, fun _ _ _ => rfl⟩
  intro i
  simpa using mergeLegs_get? 0 legs ws i

/-- C7: the pre-rounding per-leg quantities satisfy the exact equations of
the spec (miles = km × 0.621371, base ETA = seconds / 3600, adjusted
duration = seconds × multiplier, adjusted ETA = adjusted duration / 3600,
delay = adjusted ETA − base ETA), and the leg object's rounded fields are
exactly the roundings of those quantities. -/
theorem C7_per_leg_prerounding_equations (i : ℕ) (leg : LegData)
    (w : WeatherData) :
    legDistanceMiles leg = leg.distance_km.getD 0 * (621371 / 1000000) ∧
    legBaseEtaHours leg = leg.duration_seconds.getD 0 / 3600 ∧
    legAdjustedDurationSeconds leg w =
      leg.duration_seconds.getD 0 * (calculate_risk_score w).risk_multiplier ∧
    legAdjustedEtaHours leg w = legAdjustedDurationSeconds leg w / 3600 ∧
    legDelayHours leg w = legAdjustedEtaHours leg w - legBaseEtaHours leg ∧
    (mkLegResult i leg w).distance_miles = round2 (legDistanceMiles leg) ∧
    (mkLegResult i leg w).base_eta_hours = round2 (legBaseEtaHours leg) ∧
    (mkLegResult i leg w).base_duration_seconds =
      leg.duration_seconds.getD 0 ∧
    (mkLegResult i leg w).adjusted_duration_seconds =
      round0 (legAdjustedDurationSeconds leg w) ∧
    (mkLegResult i leg w).adjusted_eta_hours =
      round2 (legAdjustedEtaHours leg w) ∧
    (mkLegResult i leg w).delay_hours = round2 (legDelayHours leg w) :=
  ⟨rfl, rfl, rfl, rfl, rfl, rfl, rfl, rfl, rfl, rfl, rfl⟩

/-- C8 (counterexample): the leg object's `weather.location` is NOT echoed
from the weather observation — it is taken from the leg's destination.  A
leg to "B" paired with an observation located at "C" reports location "B". -/
theorem C8_location_echo_counterexample :
    ((merge_route_and_weather [⟨some "A", some "B", some 100, some 3600⟩]
        [⟨some "C", some "Rain", some 10, some 10, some 5, some 0⟩]).legs.map
        (fun l => l.weather.location)) = [some "B"] ∧
    ((⟨some "C", some "Rain", some 10, some 10, some 5, some 0⟩ :
      WeatherData).location = some "C") ∧
    (some "B" : Option String) ≠ some "C" := by
  refine ⟨?_, rfl, by simp⟩
  norm_num [merge_route_and_weather, mergeLegs, mkLegResult]

/-- C8 (amended): the observation's temperature and condition are echoed
unmodified (with defaults 0 / "Unknown" for absent fields), the leg
object's `weather.location` is the leg's destination (the observation's
own location field is ignored), and none of the three influence the risk
verdict: the classifier's output is unchanged when location, condition and
temperature are all erased. -/
theorem C8_weather_echo_and_frame (i : ℕ) (leg : LegData)
    (w : WeatherData) :
    (mkLegResult i leg w).weather.temperature_celsius =
      w.temperature_celsius.getD 0 ∧
    (mkLegResult i leg w).weather.condition = w.condition.getD "Unknown" ∧
    (mkLegResult i leg w).weather.location = leg.destination ∧
    calculate_risk_score w = calculate_risk_score
      ⟨none, none, w.precipitation_probability, w.wind_speed_kmh, none,
        w.weather_code⟩ ∧
    (mkLegResult i leg w).risk_level = (calculate_risk_score w).risk_level ∧
    (mkLegResult i leg w).risk_multiplier =
      (calculate_risk_score w).risk_multiplier :=
  ⟨rfl, rfl, rfl, rfl, rfl, rfl⟩

/-- C9: a routing leg with every field absent is processed without error:
distance, ETA and delay fields are 0 and the from/to fields are `none`. -/
theorem C9_missing_leg_fields_default (i : ℕ) (w : WeatherData) :
    (mkLegResult i emptyLeg w).from_city = none ∧
    (mkLegResult i emptyLeg w).to_city = none ∧
    (mkLegResult i emptyLeg w).distance_km = 0 ∧
    (mkLegResult i emptyLeg w).distance_miles = 0 ∧
    (mkLegResult i emptyLeg w).base_duration_seconds = 0 ∧
    (mkLegResult i emptyLeg w).base_eta_hours = 0 ∧
    (mkLegResult i emptyLeg w).adjusted_duration_seconds = 0 ∧
    (mkLegResult i emptyLeg w).adjusted_eta_hours = 0 ∧
    (mkLegResult i emptyLeg w).delay_hours = 0 := by
  simp [mkLegResult, emptyLeg, legDistanceMiles, legBaseEtaHours,
    legAdjustedDurationSeconds, legAdjustedEtaHours, legDelayHours]
  norm_num [round2, roundHalfEven, round0]

/-- C10: on an empty legs or empty weather sequence the merge returns an
empty leg list and an all-zero summary with overall risk LOW; and for every
input the three risk-level counts sum to the number of produced legs. -/
theorem C10_empty_input_and_count_partition (legs : List LegData)
    (ws : List WeatherData) :
    merge_route_and_weather [] ws =
      ⟨⟨0, 0, 0, 0, 0, 0, 0, "LOW"⟩, []⟩ ∧
    merge_route_and_weather legs [] =
      ⟨⟨0, 0, 0, 0, 0, 0, 0, "LOW"⟩, []⟩ ∧
    (merge_route_and_weather legs ws).route_summary.high_risk_legs +
      (merge_route_and_weather legs ws).route_summary.medium_risk_legs +
      (merge_route_and_weather legs ws).route_summary.low_risk_legs =
      (merge_route_and_weather legs ws).legs.length := by
  refine ⟨?_, ?_, count_partition 0 legs ws⟩ <;>
    norm_num [merge_route_and_weather, mergeLegs, mergeLegs_nil_right,
      round2, roundHalfEven]

end SantaMaps
